import Mathlib

/-! Verification development for the tailcall configuration-to-blueprint
compilation pipeline: the accumulating-validation substrate (`Valid`),
the `TryFold` combinator (src/try_fold.rs), and the blueprint translator
(src/blueprint/from_config.rs). Rust machine integers in scope here are
only used as opaque data, so they are embedded as `Int`; maps are embedded
as association lists. -/

set_option maxRecDepth 4000

namespace TC

/-- One validation error: a message together with the diagnostic trace
(the stack of type/field/directive names pushed while descending).
Modelled from the spec: ValidationOutcome errors are "(message, trace-path)"
pairs (crate::valid is not part of the sources under review). -/
structure Cause (E : Type) where
  message : E
  trace : List String
deriving DecidableEq, Repr

/-- Modelled from the spec: ValidationOutcome, "an accumulating result type
carrying either a value or a non-empty ordered collection of
(message, trace-path) errors" (crate::valid::Valid is not part of the
sources under review; the operations below follow spec section 4.1). -/
inductive Valid (O E : Type) where
  | succeed (value : O)
  | failure (errors : List (Cause E))
deriving DecidableEq, Repr

/-- Modelled from the spec: `fail(msg)` creates a single-error failure with an
empty trace. -/
def Valid.fail {O E : Type} (msg : E) : Valid O E :=
  Valid.failure [{ message := msg, trace := [] }]

/-- Modelled from the spec: `map`. -/
def Valid.map {A B E : Type} (v : Valid A E) (f : A → B) : Valid B E :=
  match v with
  | .succeed a => .succeed (f a)
  | .failure e => .failure e

/-- Modelled from the spec: `and_then(f)` — "monadic chain: failure
short-circuits". -/
def Valid.and_then {A B E : Type} (v : Valid A E) (f : A → Valid B E) : Valid B E :=
  match v with
  | .succeed a => f a
  | .failure e => .failure e

/-- Modelled from the spec: `zip(other)` — "both must succeed to produce a
pair; if either fails, errors from both are merged", left errors first
(encounter order). -/
def Valid.zip {A B E : Type} (va : Valid A E) (vb : Valid B E) : Valid (A × B) E :=
  match va, vb with
  | .succeed a, .succeed b => .succeed (a, b)
  | .succeed _, .failure e => .failure e
  | .failure e, .succeed _ => .failure e
  | .failure e1, .failure e2 => .failure (e1 ++ e2)

/-- Modelled from the spec: `and` keeps the second value while accumulating
the errors of both operands (it is `zip` followed by the projection). -/
def Valid.and {A B E : Type} (va : Valid A E) (vb : Valid B E) : Valid B E :=
  (va.zip vb).map Prod.snd

/-- Modelled from the spec: `fold(ok, err)` is the branch underlying
`TryFold.and` (spec section 4.2): on success it applies `ok` to the value;
on failure it still evaluates the alternative `err` and merges the two error
sets in order, never succeeding. -/
def Valid.fold {A B E : Type} (v : Valid A E) (ok : A → Valid B E) (err : Valid B E) : Valid B E :=
  match v with
  | .succeed a => ok a
  | .failure e => Valid.and (Valid.failure e : Valid A E) err

/-- Modelled from the spec: `trace(name)` "prepends `name` to every error's
trace". -/
def Valid.trace {A E : Type} (v : Valid A E) (name : String) : Valid A E :=
  match v with
  | .succeed a => .succeed a
  | .failure es => .failure (es.map fun c => { c with trace := name :: c.trace })

/-- Modelled from the spec: `from_iter(items, f)` "maps `f` over `items`,
collecting all errors from all items rather than stopping at the first",
in left-to-right item order. -/
def Valid.from_iter {A B E : Type} (items : List A) (f : A → Valid B E) : Valid (List B) E :=
  match items with
  | [] => .succeed []
  | x :: xs => ((f x).zip (Valid.from_iter xs f)).map fun p => p.1 :: p.2

/-- Modelled from the spec: `when(predicate)` "conditionally fails" — the
receiver's outcome is kept only when the predicate holds. -/
def Valid.when {E : Type} (v : Valid Unit E) (p : Bool) : Valid Unit E :=
  if p then v else .succeed ()

/-- Modelled from the spec: conversion from an optional value, failing with
the given message when absent. -/
def Valid.from_option {A E : Type} (o : Option A) (msg : E) : Valid A E :=
  match o with
  | some a => .succeed a
  | none => Valid.fail msg

/-- Modelled from the spec: conversion from a plain result. -/
def Valid.from_result {A E : Type} (r : Except E A) : Valid A E :=
  match r with
  | .ok a => .succeed a
  | .error e => Valid.fail e

/-- Modelled from the spec: replace the success value by a constant. -/
def Valid.map_to {A B E : Type} (v : Valid A E) (b : B) : Valid B E :=
  v.map fun _ => b

/-- Modelled from the spec: discard the success value. -/
def Valid.unit {A E : Type} (v : Valid A E) : Valid Unit E :=
  v.map fun _ => ()

/-- Whether the outcome is a success. -/
def Valid.is_succeed {A E : Type} : Valid A E → Bool
  | .succeed _ => true
  | .failure _ => false

/-- The error list of a failed outcome, `none` on success. -/
def Valid.errors {A E : Type} : Valid A E → Option (List (Cause E))
  | .succeed _ => none
  | .failure e => some e

/-- Embeds src/try_fold.rs `TryFold<'a, I, O, E>`: a composable, possibly
failing transformation of `(input, state)` into a new state (the boxed
closure becomes a plain function). -/
def TryFold (I O E : Type) : Type := I → O → Valid O E

/-- Embeds `TryFold::try_fold`: apply the wrapped function. -/
def TryFold.try_fold {I O E : Type} (t : TryFold I O E) (input : I) (state : O) : Valid O E :=
  t input state

/-- Embeds `TryFold::new`. -/
def TryFold.new {I O E : Type} (f : I → O → Valid O E) : TryFold I O E := f

/-- Embeds `TryFold::and`: run `self`; on success feed the new state to
`other`, on failure still run `other` on the original state and merge the
error sets (via `Valid.fold`, exactly as in the source). -/
def TryFold.and {I O E : Type} (t other : TryFold I O E) : TryFold I O E :=
  fun input state =>
    (t.try_fold input state).fold (fun value => other.try_fold input value)
      (other.try_fold input state)

/-- Embeds `TryFold::empty`: the combinator that succeeds with its state. -/
def TryFold.empty {I O E : Type} : TryFold I O E :=
  TryFold.new fun _ o => Valid.succeed o

/-- Embeds `TryFold::succeed`. -/
def TryFold.succeed {I O E : Type} (state : O) : TryFold I O E :=
  fun _ _ => Valid.succeed state

/-- Embeds `TryFold::from_iter`: `head.and(from_iter(rest))` on a nonempty
list, `empty` on the empty list (note the right-nested association produced
by the recursion in the source). -/
def TryFold.from_iter {I O E : Type} : List (TryFold I O E) → TryFold I O E
  | [] => TryFold.empty
  | head :: rest => head.and (TryFold.from_iter rest)

/-- Follows the spec words of claim C2, not the source: the claimed
"left-to-right-associated fold of `and`" over the list,
`((empty.and s1).and s2).and s3`. Kept for comparison with the source's
`TryFold.from_iter`. -/
def TryFold.from_iter_left {I O E : Type} (items : List (TryFold I O E)) : TryFold I O E :=
  items.foldl TryFold.and TryFold.empty

/-- The first step of the spec's concrete accumulation scenario: fails with
`a + b` (src/try_fold.rs tests). -/
def step_add : TryFold Int Int Int :=
  TryFold.new fun a b => Valid.fail (a + b)

/-- The second step of the scenario: succeeds with `a * b`. -/
def step_mul : TryFold Int Int Int :=
  TryFold.new fun a b => Valid.succeed (a * b)

/-- The third step of the scenario: fails with `a * b * 100`. -/
def step_mul100 : TryFold Int Int Int :=
  TryFold.new fun a b => Valid.fail (a * b * 100)

/-- Embeds crate::http::Method as used by src/blueprint/from_config.rs
(only the variants relevant to the claims; the source's spelling). -/
inductive Method where
  | GET
  | POST
  | PUT
  | PATCH
  | DELETE
deriving DecidableEq, Repr

/-- Embeds serde_json::Value / async_graphql ConstValue as structured JSON
data (numbers as Int: the claims never inspect numeric payloads). -/
inductive JsonValue where
  | null
  | bool (b : Bool)
  | num (n : Int)
  | str (s : String)
  | arr (items : List JsonValue)
  | obj (fields : List (String × JsonValue))

/-- Embeds crate::json::JsonSchema as constructed by `to_json_schema`
(the HashMap of object members becomes an association list in field order). -/
inductive JsonSchema where
  | Str
  | Num
  | Bool
  | Obj (fields : List (String × JsonSchema))
  | Arr (items : JsonSchema)
  | Opt (inner : JsonSchema)

/-- Embeds crate::config::group_by::GroupBy: the grouping key path. -/
structure GroupBy where
  path : List String
deriving DecidableEq, Repr

/-- Embeds `GroupBy::new`. -/
def GroupBy.new (path : List String) : GroupBy := { path := path }

/-- Modelled from the spec: a mustache template pre-split by the
caller-supplied tokenizer (spec section 4.3) — the list of interpolation
expressions, each already split into its dot-separated segments. -/
abbrev Mustache : Type := List (List String)

/-- Embeds `Mustache::expression_segments`: the interpolation expressions of
the template, each as its list of segments. -/
def Mustache.expression_segments (m : Mustache) : List (List String) := m

/-- Embeds crate::endpoint::Endpoint as assembled by `update_http` through
the builder chain `Endpoint::new(..).method(..).query(..).output(..)
.input(..).body(..).headers(..)`. -/
structure Endpoint where
  path : String
  method : Method
  query : List (String × String)
  output : JsonSchema
  input : JsonSchema
  body : Option String
  headers : List (String × String)

/-- Modelled from the spec: the opaque request-template value produced by the
external request-template builder (spec section 6), keeping the data the
compile-time validator reads (tokenized path and query templates) plus the
recorded request data. -/
structure RequestTemplate where
  root_url : Mustache
  query : List (String × Mustache)
  method : Method
  headers : List (String × String)
  body : Option String
  output : JsonSchema
  input : JsonSchema

mutual

/-- Embeds crate::lambda::Expression restricted to the resolver shapes this
core produces (spec section 3: Endpoint / Literal / ContextField /
ContextPath / UnsafeScript under a context wrapper, plus the input-path
re-projection wrapper used by `update_inline_field`). -/
inductive Expression where
  | ContextValue
  | ContextField (name : String)
  | ContextPath (path : List String)
  | Literal (value : JsonValue)
  | Unsafe (op : Operation)
  | Input (inner : Expression) (path : List String)

/-- Embeds crate::lambda::Operation: an endpoint binding (template, optional
group-by, optional dataloader handle) or an unsafe-script wrapper. -/
inductive Operation where
  | Endpoint (req_template : RequestTemplate) (group_by : Option GroupBy) (dl : Option Nat)
  | JS (inner : Expression) (script : String)

end

/-- Embeds `Lambda::context()`: the identity context read. -/
def Lambda.context : Expression := Expression.ContextValue

/-- Embeds `Lambda::context_field(name)`. -/
def Lambda.context_field (name : String) : Expression := Expression.ContextField name

/-- Embeds `Lambda::context_path(path)`. -/
def Lambda.context_path (path : List String) : Expression := Expression.ContextPath path

/-- Embeds `Lambda::from_request_template`: a plain (non-grouped) endpoint
resolver. -/
def Lambda.from_request_template (rt : RequestTemplate) : Expression :=
  Expression.Unsafe (Operation.Endpoint rt none none)

/-- Embeds `.to_unsafe_js(script)`: wrap the current expression behind a
script execution. -/
def Expression.to_unsafe_js (e : Expression) (script : String) : Expression :=
  Expression.Unsafe (Operation.JS e script)

/-- Embeds `.to_input_path(path)`: re-project the wrapped resolver under the
inline path. -/
def Expression.to_input_path (e : Expression) (path : List String) : Expression :=
  Expression.Input e path

/-- Embeds crate::blueprint::Type: a named type or a list type, nullability
carried per level (the source's `Type`, renamed since `Type` is reserved in
Lean). -/
inductive GqlType where
  | NamedType (name : String) (non_null : Bool)
  | ListType (of_type : GqlType) (non_null : Bool)
deriving DecidableEq, Repr

/-- Embeds `Type::name`: the underlying named type's name. -/
def GqlType.name : GqlType → String
  | .NamedType n _ => n
  | .ListType t _ => t.name

/-- Embeds `Type::is_nullable`: negation of the top-level non-null flag. -/
def GqlType.is_nullable : GqlType → Bool
  | .NamedType _ nn => !nn
  | .ListType _ nn => !nn

/-- Embeds crate::blueprint::Directive (arguments as an association list). -/
structure Directive where
  name : String
  arguments : List (String × JsonValue)
  index : Nat

/-- Embeds crate::blueprint::InputFieldDefinition. -/
structure InputFieldDefinition where
  name : String
  description : Option String
  of_type : GqlType
  default_value : Option JsonValue

/-- Embeds crate::blueprint::FieldDefinition. -/
structure FieldDefinition where
  name : String
  description : Option String
  args : List InputFieldDefinition
  of_type : GqlType
  directives : List Directive
  resolver : Option Expression

/-- Embeds the `FieldDefinition::resolver` builder: set the resolver. -/
def FieldDefinition.set_resolver (b : FieldDefinition) (r : Option Expression) : FieldDefinition :=
  { b with resolver := r }

/-- Modelled from the spec: `resolver_or_default` (the blueprint module's
helper is not part of the sources under review) — wrap the current resolver
with `f`, or install the `default` when none is set (spec section 4.7,
steps 3 and 6). -/
def FieldDefinition.resolver_or_default (b : FieldDefinition) (default : Expression)
    (f : Expression → Expression) : FieldDefinition :=
  match b.resolver with
  | none => { b with resolver := some default }
  | some r => { b with resolver := some (f r) }

/-- Embeds crate::blueprint::ObjectTypeDefinition. -/
structure ObjectTypeDefinition where
  name : String
  description : Option String
  fields : List FieldDefinition
  implements : List String

/-- Embeds crate::blueprint::InputObjectTypeDefinition. -/
structure InputObjectTypeDefinition where
  name : String
  fields : List InputFieldDefinition
  description : Option String

/-- Embeds crate::blueprint::InterfaceTypeDefinition. -/
structure InterfaceTypeDefinition where
  name : String
  fields : List FieldDefinition
  description : Option String

/-- Embeds crate::blueprint::ScalarTypeDefinition. -/
structure ScalarTypeDefinition where
  name : String
  directive : List Directive
  description : Option String

/-- Embeds crate::blueprint::EnumValueDefinition. -/
structure EnumValueDefinition where
  description : Option String
  name : String
  directives : List Directive

/-- Embeds crate::blueprint::EnumTypeDefinition. -/
structure EnumTypeDefinition where
  name : String
  directives : List Directive
  description : Option String
  enum_values : List EnumValueDefinition

/-- Embeds crate::blueprint::UnionTypeDefinition. -/
structure UnionTypeDefinition where
  name : String
  description : Option String
  directives : List Directive
  types : List String

/-- Embeds crate::blueprint::Definition: the tagged union of definitions. -/
inductive Definition where
  | ObjectTypeDefinition (d : ObjectTypeDefinition)
  | InputObjectTypeDefinition (d : InputObjectTypeDefinition)
  | InterfaceTypeDefinition (d : InterfaceTypeDefinition)
  | ScalarTypeDefinition (d : ScalarTypeDefinition)
  | EnumTypeDefinition (d : EnumTypeDefinition)
  | UnionTypeDefinition (d : UnionTypeDefinition)

/-- Embeds crate::blueprint::SchemaDefinition. -/
structure SchemaDefinition where
  query : String
  mutation : Option String
  directives : List Directive

/-- Modelled from the spec: server settings — "including a name-to-value
variable map" (spec section 3; crate::config server details are not part of
the sources under review). -/
structure Server where
  vars : List (String × String)
deriving DecidableEq, Repr

/-- Modelled from the spec: the upstream batching policy; only its presence
matters to the claims, the numbers are the policy knobs. -/
structure Batch where
  max_size : Nat
  delay : Nat
deriving DecidableEq, Repr

/-- Modelled from the spec: `Batch::default()`. -/
def Batch.default : Batch := { max_size := 100, delay := 0 }

/-- Modelled from the spec: upstream settings — "base URL, batching policy"
(spec section 3). -/
structure Upstream where
  base_url : Option String
  batch : Option Batch
deriving DecidableEq, Repr

/-- Embeds crate::blueprint::Blueprint: schema root, ordered definitions,
server settings, upstream settings. -/
structure Blueprint where
  schema : SchemaDefinition
  definitions : List Definition
  server : Server
  upstream : Upstream

/-- Modelled from the spec: the unsafe-script binding directive ("unsafe-script
binding" with a script source, spec section 3; crate::config is not part of
the sources under review). -/
structure UnsafeOperation where
  script : String

/-- Modelled from the spec: the literal-constant binding directive carrying
the configured literal payload. -/
structure ConstField where
  data : JsonValue

/-- Embeds crate::config::InlineType: the inline-path binding directive. -/
structure InlineType where
  path : List String

/-- Modelled from the spec: the rename/omission directive (spec section 4.7
step 6; the source's `omit` member is renamed `omitted`, a Lean keyword). -/
structure ModifyField where
  name : Option String
  omitted : Bool

/-- Modelled from the spec: the HTTP binding directive — method, path, query
parameters, headers, body, optional base-URL override and the group-by key
(spec sections 3 and 4.7 step 2). -/
structure Http where
  path : String
  method : Method
  query : List (String × String)
  headers : List (String × String)
  body : Option String
  base_url : Option String
  group_by : List String

/-- Modelled from the spec: an argument descriptor — "base type name,
list/required flags, documentation, default value" (spec section 3). -/
structure Arg where
  type_of : String
  list : Bool
  required : Bool
  doc : Option String
  default_value : Option JsonValue

/-- Modelled from the spec: a field descriptor — base type name,
list/required/list_type_required flags, documentation, argument mapping, at
most one resolution directive (HTTP, unsafe-script, literal-constant,
inline-path) plus an optional modify directive (spec section 3). The
source's `unsafe_operation` member keeps its name. -/
structure Field where
  type_of : String
  list : Bool
  required : Bool
  list_type_required : Bool
  doc : Option String
  args : List (String × Arg)
  http : Option Http
  unsafe_operation : Option UnsafeOperation
  const_field : Option ConstField
  inline : Option InlineType
  modify : Option ModifyField

/-- The all-defaults field descriptor, convenient for building concrete
configurations (every flag off, no directive). -/
def Field.default : Field :=
  { type_of := "String", list := false, required := false, list_type_required := false,
    doc := none, args := [], http := none, unsafe_operation := none, const_field := none,
    inline := none, modify := none }

/-- Modelled from the spec: a type descriptor — field mapping (the source's
BTreeMap becomes an association list in key order), optional enum variants,
scalar/interface flags, implements list, documentation (spec section 3). -/
structure ConfigType where
  fields : List (String × Field)
  doc : Option String
  interface : Bool
  implements : List String
  variants : Option (List String)
  scalar : Bool

/-- The all-defaults type descriptor. -/
def ConfigType.default : ConfigType :=
  { fields := [], doc := none, interface := false, implements := [], variants := none,
    scalar := false }

/-- Embeds `type_.fields.get(name)`: association-list lookup. -/
def ConfigType.fieldsGet (t : ConfigType) (name : String) : Option Field :=
  (t.fields.find? fun p => p.1 == name).map Prod.snd

/-- Modelled from the spec: a configured union — member type names and
documentation. -/
structure Union where
  types : List String
  doc : Option String

/-- Modelled from the spec: the root schema (query/mutation type names). -/
structure RootSchema where
  query : Option String
  mutation : Option String

/-- Modelled from the spec: the GraphQL section of the config — type table
and union table. -/
structure GraphQL where
  schema : RootSchema
  types : List (String × ConfigType)
  unions : List (String × Union)

/-- Modelled from the spec: the Config value — "a mapping from type name to
type descriptor", root schema, server settings, upstream settings
(spec section 3). -/
structure Config where
  graphql : GraphQL
  server : Server
  upstream : Upstream

/-- Embeds `Config::find_type`: look the name up in the type table. -/
def Config.find_type (c : Config) (name : String) : Option ConfigType :=
  (c.graphql.types.find? fun p => p.1 == name).map Prod.snd

/-- Embeds `Config::contains`: whether the name is a configured type. -/
def Config.contains (c : Config) (name : String) : Bool :=
  (c.find_type name).isSome

/-- Modelled from the spec: whether a field carries its own resolver
directive — an HTTP, const or unsafe binding (the enumeration the
path-crosses-resolver error reports in `process_field_within_type`;
crate::config::Field::has_resolver is not part of the sources under
review). -/
def Field.has_resolver (f : Field) : Bool :=
  f.http.isSome || f.unsafe_operation.isSome || f.const_field.isSome

/-- Modelled from the spec: the identifiers of the resolution directives a
field declares — "only one of HTTP/unsafe/const/inline is permitted per
field" (spec section 4.7 step 1; crate::config::Field::resolvable_directives
is not part of the sources under review). -/
def Field.resolvable_directives (f : Field) : List String :=
  (if f.http.isSome then ["http"] else []) ++
  (if f.unsafe_operation.isSome then ["unsafe"] else []) ++
  (if f.const_field.isSome then ["const"] else []) ++
  (if f.inline.isSome then ["inline"] else [])

/-- Embeds `is_scalar`: the built-in scalar type names. -/
def is_scalar (type_name : String) : Bool :=
  ["String", "Int", "Float", "Boolean", "ID", "JSON"].contains type_name

/-- Embeds `to_type`: build the GraphQL type from the name and the
list/required/list_type_required flags. -/
def to_type (name : String) (list : Bool) (non_null : Bool) (list_type_required : Bool) : GqlType :=
  if list then
    GqlType.ListType (GqlType.NamedType name list_type_required) non_null
  else
    GqlType.NamedType name non_null

/-- Embeds the digit tests of the path resolver: `parse::<usize>().is_ok()`
in `process_path` and the `^\d+$` regex in `update_inline_field` agree on
every segment without sign characters or overflow, which the embedding takes
as the digits-only predicate (a nonempty all-digit string). -/
def is_all_digits (s : String) : Bool :=
  !s.data.isEmpty && s.data.all Char.isDigit

/-- Modelled from the spec: the input-type closure of the schema — every
type name reachable from argument types through fields ("the input-type
closure", spec section 8; `Config::input_types` is not part of the sources
under review). Iterated once per configured type, which saturates any
acyclic reachability. -/
def Config.input_types (c : Config) : List String :=
  let seed := c.graphql.types.flatMap fun p =>
    p.2.fields.flatMap fun f => f.2.args.map fun a => a.2.type_of
  let step := fun (s : List String) =>
    (s ++ s.flatMap fun n =>
      match c.find_type n with
      | some t => t.fields.map fun f => f.2.type_of
      | none => []).dedup
  Nat.rec seed (fun _ acc => step acc) c.graphql.types.length

/-- Embeds `to_json_schema`: if the name resolves to a configured type, an
object schema over every field with neither an unsafe-script nor an HTTP
binding (the source tests exactly `field.unsafe_operation.is_none() &&
field.http.is_none()`); otherwise the primitive mapping with string as the
default; finally the required/list wrapping. The `fuel` argument replaces
the source's unbounded recursion through the type graph (the source has no
cycle guard; on acyclic configurations any fuel past the type-graph depth
computes the same schema). -/
def to_json_schema : Nat → String → Bool → Bool → Config → JsonSchema
  | 0, _, _, _, _ => JsonSchema.Str
  | Nat.succ fuel, type_of, required, list, config =>
    let schema := match config.find_type type_of with
      | some type_ =>
        JsonSchema.Obj ((type_.fields.filter fun p =>
            p.2.unsafe_operation.isNone && p.2.http.isNone).map fun p =>
          (p.1, to_json_schema fuel p.2.type_of p.2.required p.2.list config))
      | none =>
        match type_of with
        | "String" => JsonSchema.Str
        | "Int" => JsonSchema.Num
        | "Boolean" => JsonSchema.Bool
        | "JSON" => JsonSchema.Obj []
        | _ => JsonSchema.Str
    if !required then
      if list then JsonSchema.Opt (JsonSchema.Arr schema)
      else JsonSchema.Opt schema
    else if list then JsonSchema.Arr schema
    else schema

/-- Embeds `to_json_schema_for_field`. -/
def to_json_schema_for_field (fuel : Nat) (field : Field) (config : Config) : JsonSchema :=
  to_json_schema fuel field.type_of field.required field.list config

/-- Embeds `to_json_schema_for_args`: an object schema over the argument
map. -/
def to_json_schema_for_args (fuel : Nat) (args : List (String × Arg))
    (config : Config) : JsonSchema :=
  JsonSchema.Obj (args.map fun p =>
    (p.1, to_json_schema fuel p.2.type_of p.2.required p.2.list config))

/-- Follows the spec words of claim C3, not the source: the claimed
required/list wrapping — "non-required implies optional; list implies array;
both combine as optional-array-of-schema". -/
def wrap_schema (required list : Bool) (schema : JsonSchema) : JsonSchema :=
  if !required then
    if list then JsonSchema.Opt (JsonSchema.Arr schema)
    else JsonSchema.Opt schema
  else if list then JsonSchema.Arr schema
  else schema

/-- Follows the spec words of claim C3, not the source: the primitive leaf
for an unresolved type name, with string as the default for unknown names
(the source additionally maps "JSON" to an empty object schema). -/
def primitive_schema (name : String) : JsonSchema :=
  match name with
  | "String" => JsonSchema.Str
  | "Int" => JsonSchema.Num
  | "Boolean" => JsonSchema.Bool
  | "JSON" => JsonSchema.Obj []
  | _ => JsonSchema.Str

/-- Embeds `get_value_type`: the resolved type of a field of the enclosing
config type, if declared. -/
def get_value_type (type_of : ConfigType) (value : String) : Option GqlType :=
  (type_of.fieldsGet value).map fun field =>
    to_type field.type_of field.list field.required field.list_type_required

/-- Embeds `validate_mustache_parts`: check one interpolation expression
(already split into segments) against the value/args/vars/headers
namespaces. -/
def validate_mustache_parts (type_of : ConfigType) (config : Config) (is_query : Bool)
    (parts : List String) (args : List InputFieldDefinition) : Valid Unit String :=
  match parts with
  | head :: tail :: _ =>
    match head with
    | "value" =>
      match get_value_type type_of tail with
      | some val_type =>
        if !is_scalar val_type.name then
          Valid.fail ("value '" ++ tail ++ "' is not of a scalar type")
        else if !is_query && val_type.is_nullable then
          Valid.fail ("value '" ++ tail ++ "' is a nullable type")
        else Valid.succeed ()
      | none => Valid.fail ("no value '" ++ tail ++ "' found")
    | "args" =>
      match args.find? fun arg => arg.name == tail with
      | some arg =>
        match arg.of_type with
        | GqlType.ListType _ _ => Valid.fail ("can't use list type '" ++ tail ++ "' here")
        | GqlType.NamedType _ _ =>
          if !is_query && arg.default_value.isNone && arg.of_type.is_nullable then
            Valid.fail ("argument '" ++ tail ++ "' is a nullable type")
          else Valid.succeed ()
      | none => Valid.fail ("no argument '" ++ tail ++ "' found")
    | "vars" =>
      if (config.server.vars.find? fun p => p.1 == tail).isNone then
        Valid.fail ("var '" ++ tail ++ "' is not set in the server config")
      else Valid.succeed ()
    | "headers" => Valid.succeed ()
    | _ => Valid.fail ("unknown template directive '" ++ head ++ "'")
  | _ => Valid.fail "too few parts in template"

/-- Embeds `validate_field`: for a field resolved by an endpoint binding,
validate every interpolation expression of the path template (non-query
context) and of each query template (query context). -/
def validate_field (type_of : ConfigType) (config : Config)
    (field : FieldDefinition) : Valid Unit String :=
  match field.resolver with
  | some (Expression.Unsafe (Operation.Endpoint req_template _ _)) =>
    ((Valid.from_iter req_template.root_url.expression_segments fun parts =>
        (validate_mustache_parts type_of config false parts field.args).trace "path").and
      (Valid.from_iter req_template.query fun query =>
        Valid.from_iter query.2.expression_segments fun parts =>
          (validate_mustache_parts type_of config true parts field.args).trace "query")).unit
  | _ => Valid.succeed ()

/-- Modelled from the spec: the caller-supplied mustache tokenizer (spec
sections 4.3 and 6) — collect the text between each "\x7b\x7b" and the next
"\x7d\x7d", scanning left to right. The fuel is the character count, so it
never runs out. -/
def mustache_scan : Nat → List Char → Option (List Char) → List (List Char)
  | 0, _, _ => []
  | Nat.succ fuel, chars, some acc =>
    match chars with
    | '}' :: '}' :: rest => acc.reverse :: mustache_scan fuel rest none
    | c :: rest => mustache_scan fuel rest (some (c :: acc))
    | [] => []
  | Nat.succ fuel, chars, none =>
    match chars with
    | '{' :: '{' :: rest => mustache_scan fuel rest (some [])
    | _ :: rest => mustache_scan fuel rest none
    | [] => []

/-- Split an expression into its dot-separated segments (the character-list
counterpart of splitting on '.', including empty segments). -/
def split_dot_segments : List Char → List Char → List String
  | [], acc => [String.mk acc.reverse]
  | '.' :: rest, acc => String.mk acc.reverse :: split_dot_segments rest []
  | c :: rest, acc => split_dot_segments rest (c :: acc)

/-- Modelled from the spec: parse a template string into its interpolation
expressions, each split into dot-separated segments. -/
def Mustache.parse (s : String) : Mustache :=
  (mustache_scan (s.data.length + 1) s.data none).map fun expr =>
    split_dot_segments expr []

/-- Modelled from the spec: the external HTTP header-name validation
capability (spec section 6) — a nonempty token of letters, digits, hyphens
and underscores. -/
def header_name_from_bytes (s : String) : Except String String :=
  if !s.data.isEmpty && s.data.all (fun c => c.isAlphanum || c == '-' || c == '_') then
    Except.ok s
  else Except.error ("invalid HTTP header name: " ++ s)

/-- Modelled from the spec: the external HTTP header-value validation
capability — visible ASCII and spaces only. -/
def header_value_from_str (s : String) : Except String String :=
  if s.data.all (fun c => 32 ≤ c.toNat && c.toNat ≤ 126) then
    Except.ok s
  else Except.error ("invalid HTTP header value: " ++ s)

/-- Modelled from the spec: the external request-template builder (spec
section 6) — tokenize the path and the query values and record the request
data; the opaque builder is modelled as never failing. -/
def RequestTemplate.try_from (e : Endpoint) : Except String RequestTemplate :=
  Except.ok
    { root_url := Mustache.parse e.path,
      query := e.query.map fun kv => (kv.1, Mustache.parse kv.2),
      method := e.method,
      headers := e.headers,
      body := e.body,
      output := e.output,
      input := e.input }

/-- Embeds `base_url.ends_with('/')` on the underlying character list (the
core String.endsWith does not reduce definitionally). -/
def ends_with_slash (s : String) : Bool :=
  s.data.getLast? == some '/'

/-- Embeds `base_url.pop()`: drop the final character. -/
def pop_last (s : String) : String :=
  String.mk s.data.dropLast

/-- Embeds `update_http`: resolve the effective base URL (field override,
then the upstream default, else "No base URL defined"), append the path,
reject a non-empty group-by on a non-GET method, validate every header,
build the request template, bind either a group-by endpoint resolver (GET
with group-by) or a plain endpoint resolver, then run the template
validator over the bound field. -/
def update_http (fuel : Nat) (field : Field) (b_field : FieldDefinition)
    (type_of : ConfigType) (config : Config) : Valid FieldDefinition String :=
  match field.http with
  | none => Valid.succeed b_field
  | some http =>
    match (match http.base_url with
           | some b => some b
           | none => config.upstream.base_url) with
    | none => Valid.fail "No base URL defined"
    | some base_url0 =>
      let base_url :=
        (if ends_with_slash base_url0 then pop_last base_url0 else base_url0) ++ http.path
      let query := http.query
      let output_schema := to_json_schema_for_field fuel field config
      let input_schema := to_json_schema_for_args fuel field.args config
      (((((Valid.fail "GroupBy is only supported for GET requests" : Valid Unit String).when
            (!http.group_by.isEmpty && http.method != Method.GET)).and
          (Valid.from_iter http.headers fun kv =>
            ((Valid.from_result (header_name_from_bytes kv.1)).zip
              (Valid.from_result (header_value_from_str kv.2))).map fun nv => nv)).map
        (fun header_map => header_map)).and_then fun header_map =>
        Valid.from_result (RequestTemplate.try_from
          { path := base_url, method := http.method, query := query,
            output := output_schema, input := input_schema, body := http.body,
            headers := header_map })).map (fun req_template =>
          if !http.group_by.isEmpty && http.method == Method.GET then
            b_field.set_resolver (some (Expression.Unsafe
              (Operation.Endpoint req_template (some (GroupBy.new http.group_by)) none)))
          else
            b_field.set_resolver (some (Lambda.from_request_template req_template)))
        |>.and_then fun b_field =>
          (validate_field type_of config b_field).map_to b_field

/-- Embeds `update_unsafe`: wrap the current resolver (defaulting to the
identity context read) behind a script execution when the unsafe-script
directive is present. -/
def update_unsafe (field : Field) (b_field : FieldDefinition) : FieldDefinition :=
  match field.unsafe_operation with
  | some op =>
    b_field.resolver_or_default (Lambda.context.to_unsafe_js op.script) fun r =>
      r.to_unsafe_js op.script
  | none => b_field

/-- Modelled from the spec: `ConstValue::from_json` — the literal payload is
already structured data in this embedding, so conversion always succeeds
(parse failures of the external JSON layer are out of scope, spec
section 6). -/
def ConstValue.from_json (v : JsonValue) : Except String JsonValue :=
  Except.ok v

/-- Modelled from the spec: `JsonSchema::validate` — structural conformance
of a literal value to an inferred schema (spec section 4.4: "used to
validate literal values"); fuel bounds the recursion through object
members. -/
def JsonSchema.validate : Nat → JsonSchema → JsonValue → Valid Unit String
  | 0, _, _ => Valid.fail "schema validation recursion limit"
  | Nat.succ fuel, schema, value =>
    match schema, value with
    | JsonSchema.Str, JsonValue.str _ => Valid.succeed ()
    | JsonSchema.Num, JsonValue.num _ => Valid.succeed ()
    | JsonSchema.Bool, JsonValue.bool _ => Valid.succeed ()
    | JsonSchema.Opt _, JsonValue.null => Valid.succeed ()
    | JsonSchema.Opt inner, v => JsonSchema.validate fuel inner v
    | JsonSchema.Arr item, JsonValue.arr items =>
      (Valid.from_iter items fun v => JsonSchema.validate fuel item v).unit
    | JsonSchema.Obj members, JsonValue.obj fields =>
      (Valid.from_iter members fun m =>
        match (fields.find? fun p => p.1 == m.1).map Prod.snd with
        | some v => JsonSchema.validate fuel m.2 v
        | none => Valid.fail ("missing value for field " ++ m.1)).unit
    | _, _ => Valid.fail "value does not match the expected shape"

/-- Embeds `update_const_field`: parse the configured literal, validate it
against the schema inferred for the field's declared type, and on success
bind a literal-value resolver. -/
def update_const_field (fuel : Nat) (field : Field) (b_field : FieldDefinition)
    (config : Config) : Valid FieldDefinition String :=
  match field.const_field with
  | none => Valid.succeed b_field
  | some const_field =>
    let data := const_field.data
    match ConstValue.from_json data with
    | Except.ok gql_value =>
      match JsonSchema.validate fuel (to_json_schema_for_field fuel field config) gql_value with
      | Valid.succeed _ => Valid.succeed { b_field with resolver := some (Expression.Literal data) }
      | Valid.failure err => Valid.failure err
    | Except.error e => Valid.fail ("invalid JSON: " ++ e)

/-- Embeds `update_modify`: omit drops the field; a rename first rejects
collisions with fields inherited from implemented interfaces, then wraps the
prior resolver behind a context read of the old name and renames the
definition. -/
def update_modify (field : Field) (b_field : FieldDefinition) (type_ : ConfigType)
    (config : Config) : Valid (Option FieldDefinition) String :=
  match field.modify with
  | some modify =>
    if modify.omitted then Valid.succeed none
    else
      match modify.name with
      | some new_name =>
        if type_.implements.any (fun name =>
            match config.find_type name with
            | some interface => interface.fields.any fun p => p.1 == new_name
            | none => false) then
          Valid.fail "Field is already implemented from interface"
        else
          let lambda := Lambda.context_field b_field.name
          let b_field := b_field.resolver_or_default lambda fun r => r
          let b_field := { b_field with name := new_name }
          Valid.succeed (some b_field)
      | none => Valid.succeed (some b_field)
  | none => Valid.succeed (some b_field)

/-- Embeds the directive-kind tag of the path-crosses-resolver error in
`process_field_within_type`: "http" if the field has an HTTP binding, else
"const" if it has a constant binding, else "unsafe". -/
def next_resolver_directive (f : Field) : String :=
  match f.http with
  | some _ => "http"
  | none =>
    match f.const_field with
    | some _ => "const"
    | none => "unsafe"

/-- The two mutually recursive functions of the path resolver, packaged as
one structural recursion on the shared fuel so that applications reduce
definitionally; `process_path` and `process_field_within_type` below project
the two components. The fuel replaces the source's unbounded recursion (the
source has no cycle guard; on acyclic configurations any fuel past the path
length plus the type-graph depth computes the same outcome). -/
def path_resolver (fuel : Nat) :
    (List String → Field → ConfigType → Bool → Config →
      (String → List String → Valid GqlType String) → Valid GqlType String) ×
    (Field → String → List String → ConfigType → Bool → Config →
      (String → List String → Valid GqlType String) → Valid GqlType String) :=
  match fuel with
  | 0 =>
    (fun _ _ _ _ _ _ => Valid.fail "recursion limit reached",
     fun _ _ _ _ _ _ _ => Valid.fail "recursion limit reached")
  | Nat.succ fuel =>
    (fun path field type_info is_required config invalid_path_handler =>
      match path with
      | [] =>
        Valid.succeed (to_type field.type_of field.list is_required field.list_type_required)
      | field_name :: remaining_path =>
        if is_all_digits field_name then
          (path_resolver fuel).1 remaining_path { field with list := false } type_info false
            config invalid_path_handler
        else
          match (if (type_info.fieldsGet field_name).isSome then some type_info
                 else config.find_type field.type_of) with
          | some target_type_info =>
            (path_resolver fuel).2 field field_name remaining_path target_type_info
              is_required config invalid_path_handler
          | none => invalid_path_handler field_name path,
     fun field field_name remaining_path type_info is_required config
        invalid_path_handler =>
      match type_info.fieldsGet field_name with
      | some next_field =>
        if next_field.has_resolver then
          (Valid.fail ("Inline can't be done because of " ++
              next_resolver_directive next_field ++ " resolver at [" ++
              field.type_of ++ "." ++ field_name ++ "]") : Valid GqlType String).and
            ((path_resolver fuel).1 remaining_path next_field type_info is_required config
              invalid_path_handler)
        else
          let next_is_required := is_required && next_field.required
          if is_scalar next_field.type_of then
            (path_resolver fuel).1 remaining_path next_field type_info next_is_required
              config invalid_path_handler
          else
            match config.find_type next_field.type_of with
            | some next_type_info =>
              ((path_resolver fuel).1 remaining_path next_field next_type_info
                next_is_required config invalid_path_handler).and_then fun of_type =>
                if next_field.list then
                  Valid.succeed (GqlType.ListType of_type is_required)
                else Valid.succeed of_type
            | none => invalid_path_handler field_name remaining_path
      | none =>
        match remaining_path with
        | head :: tail =>
          match type_info.fieldsGet head with
          | some next => (path_resolver fuel).1 tail next type_info is_required config
              invalid_path_handler
          | none => invalid_path_handler field_name remaining_path
        | [] => invalid_path_handler field_name remaining_path)

/-- Embeds `process_path`: resolve the remaining path against the current
field and enclosing type. A digits-only segment clears the field's list flag
and resets the accumulated required flag; otherwise the segment is resolved
on the current type, falling back to the type named by the current field's
own type. -/
def process_path (fuel : Nat) (path : List String) (field : Field)
    (type_info : ConfigType) (is_required : Bool) (config : Config)
    (invalid_path_handler : String → List String → Valid GqlType String) :
    Valid GqlType String :=
  (path_resolver fuel).1 path field type_info is_required config invalid_path_handler

/-- Embeds `process_field_within_type`: resolve one segment naming a field
of `type_info`. A field carrying its own resolver directive fails (with the
error still accumulating the rest of the path's errors); a scalar field
recurses with unchanged type context; an object field recurses into its
type's field table and re-wraps the result in a list when the field was
list-typed (the wrapper's non-null flag is the accumulated flag before this
field); an unknown segment falls through to the next path segment or to the
invalid-path handler. -/
def process_field_within_type (fuel : Nat) (field : Field) (field_name : String)
    (remaining_path : List String) (type_info : ConfigType) (is_required : Bool)
    (config : Config)
    (invalid_path_handler : String → List String → Valid GqlType String) :
    Valid GqlType String :=
  (path_resolver fuel).2 field field_name remaining_path type_info is_required config
    invalid_path_handler
/-- Embeds the invalid-path handler closed over by `update_inline_field`. -/
def handle_invalid_path (_field_name : String) (_inlined_path : List String) :
    Valid GqlType String :=
  Valid.fail "Inline can't be done because provided path doesn't exist"

/-- Embeds `update_inline_field`: resolve the inline path starting at the
field's enclosing type with the accumulated required flag initialized to
false; on success replace the field's result type with the resolved type
(degraded to an unconstrained nullable named type when any segment was a
numeric index) and bind a context-path resolver. -/
def update_inline_field (fuel : Nat) (type_info : ConfigType) (field : Field)
    (base_field : FieldDefinition) (config : Config) : Valid FieldDefinition String :=
  let inlined_path := match field.inline with
    | some x => x.path
    | none => []
  let has_index := inlined_path.any is_all_digits
  match field.inline with
  | some inline =>
    (process_path fuel inlined_path field type_info false config
        handle_invalid_path).and_then fun of_type =>
      let resolver := Lambda.context_path inline.path
      let updated_base_field :=
        if has_index then
          { base_field with of_type := GqlType.NamedType of_type.name false }
        else
          { base_field with of_type := of_type }
      Valid.succeed (updated_base_field.resolver_or_default resolver fun r =>
        r.to_input_path inline.path)
  | none => Valid.succeed base_field

/-- Embeds `to_args`: translate the argument map into input field
definitions (always succeeds). -/
def to_args (field : Field) : Valid (List InputFieldDefinition) String :=
  Valid.from_iter field.args fun p =>
    Valid.succeed
      { name := p.1,
        description := p.2.doc,
        of_type := to_type p.2.type_of p.2.list p.2.required false,
        default_value := p.2.default_value }

/-- Embeds `to_field`: reject multiple resolution directives, then build the
base field definition and thread it through the resolver pipeline — HTTP
binding, unsafe-script binding, literal-constant binding, inline-path
binding, rename/omit — each step's failures traced with its directive
name. -/
def to_field (fuel : Nat) (type_of : ConfigType) (config : Config) (name : String)
    (field : Field) : Valid (Option FieldDefinition) String :=
  let directives := field.resolvable_directives
  if directives.length > 1 then
    Valid.fail ("Multiple resolvers detected [" ++ String.intercalate ", " directives ++ "]")
  else
    (to_args field).and_then fun args =>
      let field_definition : FieldDefinition :=
        { name := name,
          description := field.doc,
          args := args,
          of_type := to_type field.type_of field.list field.required field.list_type_required,
          directives := [],
          resolver := none }
      (((((update_http fuel field field_definition type_of config).trace "@http").map
          fun field_definition => update_unsafe field field_definition).and_then
        fun field_definition =>
          (update_const_field fuel field field_definition config).trace "@const").and_then
        fun field_definition =>
          (update_inline_field fuel type_of field field_definition config).trace
            "@inline").and_then
        fun field_definition =>
          (update_modify field field_definition type_of config).trace "@modify"

/-- Embeds `validate_field_type_exist`: a field's declared type must be a
built-in scalar or a configured type. -/
def validate_field_type_exist (config : Config) (field : Field) : Valid Unit String :=
  if !is_scalar field.type_of && !config.contains field.type_of then
    Valid.fail ("Undeclared type '" ++ field.type_of ++ "' was found")
  else Valid.succeed ()

/-- Embeds `to_fields`: translate every field of the type, accumulating all
errors, then drop the omitted ones. -/
def to_fields (fuel : Nat) (type_of : ConfigType) (config : Config) :
    Valid (List FieldDefinition) String :=
  (Valid.from_iter type_of.fields fun p =>
    ((validate_field_type_exist config p.2).and
      (to_field fuel type_of config p.1 p.2)).trace p.1).map fun fields =>
    fields.filterMap id

/-- Embeds `to_scalar_type_definition`. -/
def to_scalar_type_definition (name : String) : Valid Definition String :=
  Valid.succeed (Definition.ScalarTypeDefinition
    { name := name, directive := [], description := none })

/-- Embeds `to_union_type_definition`. -/
def to_union_type_definition (p : String × Union) : UnionTypeDefinition :=
  { name := p.1, description := p.2.doc, directives := [], types := p.2.types }

/-- Embeds `to_enum_type_definition`. -/
def to_enum_type_definition (name : String) (type_ : ConfigType)
    (variants : List String) : Valid Definition String :=
  Valid.succeed (Definition.EnumTypeDefinition
    { name := name,
      directives := [],
      description := type_.doc,
      enum_values := variants.map fun variant =>
        { description := none, name := variant, directives := [] } })

/-- Embeds `to_object_type_definition`. -/
def to_object_type_definition (fuel : Nat) (name : String) (type_of : ConfigType)
    (config : Config) : Valid Definition String :=
  (to_fields fuel type_of config).map fun fields =>
    Definition.ObjectTypeDefinition
      { name := name,
        description := type_of.doc,
        fields := fields,
        implements := type_of.implements }

/-- Embeds `to_input_object_type_definition`. -/
def to_input_object_type_definition (definition : ObjectTypeDefinition) :
    Valid Definition String :=
  Valid.succeed (Definition.InputObjectTypeDefinition
    { name := definition.name,
      fields := definition.fields.map fun field =>
        { name := field.name,
          description := field.description,
          default_value := none,
          of_type := field.of_type },
      description := definition.description })

/-- Embeds `to_interface_type_definition`. -/
def to_interface_type_definition (definition : ObjectTypeDefinition) :
    Valid Definition String :=
  Valid.succeed (Definition.InterfaceTypeDefinition
    { name := definition.name,
      fields := definition.fields,
      description := definition.description })

/-- Embeds `to_definitions`: translate every configured type — non-empty
variants make an enum (empty variants fail), the scalar flag makes a scalar,
a name used in both the input and the output closure fails (traced with the
name), anything else becomes an object definition, reinterpreted as an
input-object or interface definition where applicable. The source writes
this body as the closure passed to `Valid::from_iter` inside
`to_definitions`; it is named here so theorems can speak about one item. -/
def to_definition_item (fuel : Nat) (config : Config) (output_types : List String)
    (input_types : List String) (p : String × ConfigType) : Valid Definition String :=
  let name := p.1
  let type_ := p.2
  let dbl_usage := input_types.contains name && output_types.contains name
  match type_.variants with
  | some variants =>
    if !variants.isEmpty then
      (to_enum_type_definition name type_ variants).trace name
    else
      Valid.fail "No variants found for enum"
  | none =>
    if type_.scalar then
      (to_scalar_type_definition name).trace name
    else if dbl_usage then
      (Valid.fail "type is used in input and output" : Valid Definition String).trace name
    else
      ((to_object_type_definition fuel name type_ config).trace name).and_then
        fun definition =>
          match definition with
          | Definition.ObjectTypeDefinition object_type_definition =>
            if (config.input_types).contains name then
              (to_input_object_type_definition object_type_definition).trace name
            else if type_.interface then
              (to_interface_type_definition object_type_definition).trace name
            else Valid.succeed definition
          | _ => Valid.succeed definition

/-- Embeds `to_definitions`: fold `to_definition_item` over the type table
with full error accumulation, then append the union definitions. -/
def to_definitions (fuel : Nat) (config : Config) (output_types : List String)
    (input_types : List String) : Valid (List Definition) String :=
  (Valid.from_iter config.graphql.types
    (to_definition_item fuel config output_types input_types)).map fun types =>
    types ++ (config.graphql.unions.map fun u =>
      Definition.UnionTypeDefinition (to_union_type_definition u))

/-- Embeds the group-by test of `apply_batching`'s inner loop: whether the
field's resolver is an endpoint binding carrying a group-by
configuration. -/
def field_has_group_by_resolver (field : FieldDefinition) : Bool :=
  match field.resolver with
  | some (Expression.Unsafe (Operation.Endpoint _ (some _) _)) => true
  | _ => false

/-- Embeds the outer loop test of `apply_batching`: an object definition with
some group-by endpoint field. -/
def definition_has_group_by (d : Definition) : Bool :=
  match d with
  | Definition.ObjectTypeDefinition object_type_definition =>
    object_type_definition.fields.any field_has_group_by_resolver
  | _ => false

/-- Embeds `apply_batching`: scan the definitions for an object-type field
resolved by a group-by endpoint; on the first hit fill the upstream batch
policy with the default if absent and stop. The source's early-returning
loop performs the same single update whichever field matches first, so the
scan folds to the boolean test. -/
def apply_batching (blueprint : Blueprint) : Blueprint :=
  if blueprint.definitions.any definition_has_group_by then
    { blueprint with upstream :=
      { blueprint.upstream with batch := blueprint.upstream.batch.or (some Batch.default) } }
  else blueprint

/-- A configuration with no types, no unions, no vars, no upstream data:
the base on which the concrete test configurations below are built. -/
def empty_config : Config :=
  { graphql := { schema := { query := none, mutation := none }, types := [], unions := [] },
    server := { vars := [] },
    upstream := { base_url := none, batch := none } }

/-- C3 fixture: a plain data field of type String. -/
def c3_plain_field : Field :=
  { Field.default with type_of := "String", required := true }

/-- C3 fixture: a String field bound to a literal-constant resolver. -/
def c3_const_field : Field :=
  { Field.default with
    type_of := "String"
    required := true
    const_field := some { data := JsonValue.str "x" } }

/-- C3 fixture: the object type Foo with fields a (plain) and b (const). -/
def c3_foo_type : ConfigType :=
  { ConfigType.default with
    fields := [("a", c3_plain_field), ("b", c3_const_field)] }

/-- C3 fixture: a configuration with one object type, one plain field and
one const-resolved field. -/
def c3_config : Config :=
  { empty_config with graphql :=
    { schema := { query := none, mutation := none },
      types := [("Foo", c3_foo_type)],
      unions := [] } }

/-- C4 fixture: the scalar field `address`, declared required. -/
def c4_address_field : Field :=
  { Field.default with type_of := "String", required := true }

/-- C4 fixture: the field `user: User!` inlined along ["address"]. -/
def c4_user_field : Field :=
  { Field.default with
    type_of := "User"
    required := true
    inline := some { path := ["address"] } }

/-- C4 fixture: the Query type owning the inlined field. -/
def c4_query_type : ConfigType :=
  { ConfigType.default with fields := [("user", c4_user_field)] }

/-- C4 fixture: configuration with Query.user: User! and
User.address: String!. -/
def c4_config : Config :=
  { empty_config with graphql :=
    { schema := { query := some "Query", mutation := none },
      types :=
        [("Query", c4_query_type),
         ("User", { ConfigType.default with fields := [("address", c4_address_field)] })],
      unions := [] } }

/-- C4 fixture: the blueprint field the inline step starts from. -/
def c4_base_field : FieldDefinition :=
  { name := "user", description := none, args := [],
    of_type := to_type "User" false true false, directives := [], resolver := none }

/-- C4 list-rewrap fixture: `friends: [Friend!]!` on User. -/
def c4_friends_field : Field :=
  { Field.default with
    type_of := "Friend"
    list := true
    required := true
    list_type_required := true }

/-- C4 list-rewrap fixture: `user: User!` inlined along
["friends", "name"]. -/
def c4_list_user_field : Field :=
  { Field.default with
    type_of := "User"
    required := true
    inline := some { path := ["friends", "name"] } }

/-- C4 list-rewrap fixture: the Query type owning the inlined field. -/
def c4_list_query_type : ConfigType :=
  { ConfigType.default with fields := [("user", c4_list_user_field)] }

/-- C4 list-rewrap fixture configuration. -/
def c4_list_config : Config :=
  { empty_config with graphql :=
    { schema := { query := some "Query", mutation := none },
      types :=
        [("Query", c4_list_query_type),
         ("User", { ConfigType.default with fields := [("friends", c4_friends_field)] }),
         ("Friend", { ConfigType.default with
           fields := [("name", { Field.default with type_of := "String", required := true })] })],
      unions := [] } }

/-- C5 fixture: an HTTP binding with default settings. -/
def c5_http : Http :=
  { path := "/posts", method := Method.GET, query := [], headers := [], body := none,
    base_url := none, group_by := [] }

/-- C5 fixture: the field `posts`, bound to an HTTP resolver. -/
def c5_posts_field : Field :=
  { Field.default with type_of := "Post", http := some c5_http }

/-- C5 fixture: the type owning the HTTP-resolved field. -/
def c5_user_type : ConfigType :=
  { ConfigType.default with fields := [("posts", c5_posts_field)] }

/-- C5 fixture: the field whose inline path crosses `posts` (its own type is
User). -/
def c5_parent_field : Field :=
  { Field.default with type_of := "User" }

/-- C6 fixture: a field declaring both an HTTP and a const directive. -/
def c6_field : Field :=
  { Field.default with
    type_of := "String"
    http := some c5_http
    const_field := some { data := JsonValue.str "y" } }

/-- C7 fixture: the enum type E. -/
def c7_enum_type : ConfigType :=
  { ConfigType.default with variants := some ["A"] }

/-- C7 fixture: Query.q(x: E): E — E is used in both the input closure (as
an argument type) and the output closure (as a field type). -/
def c7_query_field : Field :=
  { Field.default with
    type_of := "E"
    args := [("x", { type_of := "E", list := false, required := false, doc := none,
                     default_value := none })] }

/-- C7 fixture: schema whose enum E appears in both closures. -/
def c7_config : Config :=
  { empty_config with graphql :=
    { schema := { query := some "Query", mutation := none },
      types :=
        [("Query", { ConfigType.default with fields := [("q", c7_query_field)] }),
         ("E", c7_enum_type)],
      unions := [] } }

/-- C7 fixture: a plain (non-enum, non-scalar) type for the amended
invariant's witness. -/
def c7_plain_config : Config :=
  { empty_config with graphql :=
    { schema := { query := none, mutation := none },
      types := [("B", ConfigType.default)],
      unions := [] } }

/-- C8 fixture: an HTTP binding with a non-empty group-by on POST. -/
def c8_http_group_by : Http :=
  { path := "/users", method := Method.POST, query := [], headers := [], body := none,
    base_url := some "http://api", group_by := ["id"] }

/-- C8 fixture: an HTTP binding with an empty group-by on POST. -/
def c8_http_plain : Http :=
  { path := "/users", method := Method.POST, query := [], headers := [], body := none,
    base_url := some "http://api", group_by := [] }

/-- C8 fixture: the configured field carrying the group-by binding. -/
def c8_field_group_by : Field :=
  { Field.default with type_of := "User", http := some c8_http_group_by }

/-- C8 fixture: the configured field carrying the plain binding. -/
def c8_field_plain : Field :=
  { Field.default with type_of := "User", http := some c8_http_plain }

/-- C8 fixture: the blueprint field the HTTP step starts from. -/
def c8_base_field : FieldDefinition :=
  { name := "users", description := none, args := [],
    of_type := to_type "User" false false false, directives := [], resolver := none }

/-- A request template with no interpolation, for blueprint fixtures. -/
def rt_empty : RequestTemplate :=
  { root_url := [], query := [], method := Method.GET, headers := [], body := none,
    output := JsonSchema.Str, input := JsonSchema.Obj [] }

/-- C9 fixture: a field resolved by a group-by endpoint. -/
def group_by_field_def : FieldDefinition :=
  { name := "users", description := none, args := [],
    of_type := GqlType.NamedType "User" false, directives := [],
    resolver := some (Expression.Unsafe
      (Operation.Endpoint rt_empty (some (GroupBy.new ["id"])) none)) }

/-- C9 fixture: a field with no resolver. -/
def plain_field_def : FieldDefinition :=
  { name := "name", description := none, args := [],
    of_type := GqlType.NamedType "String" false, directives := [], resolver := none }

/-- C9 fixture: a blueprint containing one group-by endpoint field and no
batch settings. -/
def blueprint_with_group_by : Blueprint :=
  { schema := { query := "Query", mutation := none, directives := [] },
    definitions := [Definition.ObjectTypeDefinition
      { name := "Query", description := none, fields := [group_by_field_def],
        implements := [] }],
    server := { vars := [] },
    upstream := { base_url := none, batch := none } }

/-- C9 fixture: a blueprint with no group-by endpoint field and no batch
settings. -/
def blueprint_without_group_by : Blueprint :=
  { schema := { query := "Query", mutation := none, directives := [] },
    definitions := [Definition.ObjectTypeDefinition
      { name := "Query", description := none, fields := [plain_field_def],
        implements := [] }],
    server := { vars := [] },
    upstream := { base_url := none, batch := none } }

/-- C4 fixture: the field definition produced by the successful inline step
over c4_config (nullable result type, context-path resolver). -/
def c4_result_field : FieldDefinition :=
  { name := "user", description := none, args := [],
    of_type := GqlType.NamedType "String" false, directives := [],
    resolver := some (Expression.ContextPath ["address"]) }

/-- C5 counterexample fixture: the scalar field T2.c. -/
def c5_c_field : Field :=
  { Field.default with type_of := "String", required := true }

/-- C5 counterexample fixture: the field T1.b, carrying an HTTP resolver. -/
def c5_b_field : Field :=
  { Field.default with type_of := "T2", http := some c5_http }

/-- C5 counterexample fixture: the type T1 owning the HTTP-resolved b. -/
def c5_t1_type : ConfigType :=
  { ConfigType.default with fields := [("b", c5_b_field)] }

/-- C5 counterexample fixture: the type T2. -/
def c5_t2_type : ConfigType :=
  { ConfigType.default with fields := [("c", c5_c_field)] }

/-- C5 counterexample fixture: T0.f of type T1, inlined along
["x", "b", "c"] — the first segment names no field anywhere, so the
resolver walks into the not-found fallback. -/
def c5_f_field : Field :=
  { Field.default with
    type_of := "T1"
    inline := some { path := ["x", "b", "c"] } }

/-- C5 counterexample fixture: the type T0 owning the inlined field. -/
def c5_t0_type : ConfigType :=
  { ConfigType.default with fields := [("f", c5_f_field)] }

/-- C5 counterexample fixture: the configuration with T0, T1, T2. -/
def c5_cross_config : Config :=
  { empty_config with graphql :=
    { schema := { query := none, mutation := none },
      types := [("T0", c5_t0_type), ("T1", c5_t1_type), ("T2", c5_t2_type)],
      unions := [] } }

/-- C5 counterexample fixture: the blueprint field the inline step starts
from. -/
def c5_base_field : FieldDefinition :=
  { name := "f", description := none, args := [],
    of_type := to_type "T1" false false false, directives := [], resolver := none }

/-- C1: `(f.and g).try_fold input state` runs `g` on `f`'s result state when
`f` succeeds, and runs `g` on the original state when `f` fails, merging the
two error lists in f-then-g order; concretely, over input 2 and state 3 the
left-associated composition of fail(a+b), succeed(a*b), fail(a*b*100) fails
with error list [5, 600] and the right-associated composition fails with
[5, 1200]. -/
theorem c1_tryfold_and_semantics :
    (∀ (f g : TryFold Int Int Int) (input state value : Int),
        f.try_fold input state = Valid.succeed value →
        (f.and g).try_fold input state = g.try_fold input value) ∧
    (∀ (f g : TryFold Int Int Int) (input state : Int) (e e2 : List (Cause Int)),
        f.try_fold input state = Valid.failure e →
        g.try_fold input state = Valid.failure e2 →
        (f.and g).try_fold input state = Valid.failure (e ++ e2)) ∧
    (∀ (f g : TryFold Int Int Int) (input state : Int) (e : List (Cause Int)) (value : Int),
        f.try_fold input state = Valid.failure e →
        g.try_fold input state = Valid.succeed value →
        (f.and g).try_fold input state = Valid.failure e) ∧
    ((step_add.and step_mul).and step_mul100).try_fold 2 3 =
      Valid.failure [{ message := (5 : Int), trace := [] }, { message := (600 : Int), trace := [] }] ∧
    (step_add.and (step_mul.and step_mul100)).try_fold 2 3 =
      Valid.failure [{ message := (5 : Int), trace := [] }, { message := (1200 : Int), trace := [] }] := by
  refine ⟨?_, ?_, ?_, by decide, by decide⟩
  · intro f g input state value hf
    show Valid.fold (f.try_fold input state) (fun v => g.try_fold input v)
      (g.try_fold input state) = g.try_fold input value
    rw [hf]
    rfl
  · intro f g input state e e2 hf hg
    show Valid.fold (f.try_fold input state) (fun v => g.try_fold input v)
      (g.try_fold input state) = Valid.failure (e ++ e2)
    rw [hf, Valid.fold, Valid.and, Valid.zip.eq_def]
    rw [hg]
    rfl
  · intro f g input state e value hf hg
    show Valid.fold (f.try_fold input state) (fun v => g.try_fold input v)
      (g.try_fold input state) = Valid.failure e
    rw [hf, Valid.fold, Valid.and, Valid.zip.eq_def]
    rw [hg]
    rfl

/-- Witness for C1: the general clauses applied at the concrete steps —
`step_mul` succeeds with 6 so the composition continues from 6, and
`step_add` fails with [5] while `step_mul` succeeds, keeping [5]. -/
theorem c1_tryfold_and_semantics_witness :
    (step_mul.and step_mul100).try_fold 2 3 = step_mul100.try_fold 2 6 ∧
    (step_add.and step_mul).try_fold 2 3 =
      Valid.failure [{ message := (5 : Int), trace := [] }] := by
  exact ⟨c1_tryfold_and_semantics.1 step_mul step_mul100 2 3 6 (by decide),
    c1_tryfold_and_semantics.2.2.1 step_add step_mul 2 3
      [{ message := (5 : Int), trace := [] }] 6 (by decide) (by decide)⟩

/-- Counterexample for C2: `from_iter` is not the left-to-right-associated
fold of `and` — over the spec's own scenario (input 2, state 3) the source's
`from_iter` yields error list [5, 1200] while the left-associated fold
yields [5, 600]. -/
theorem c2_from_iter_not_left_associated :
    (TryFold.from_iter [step_add, step_mul, step_mul100]).try_fold 2 3 =
      Valid.failure [{ message := (5 : Int), trace := [] }, { message := (1200 : Int), trace := [] }] ∧
    (TryFold.from_iter_left [step_add, step_mul, step_mul100]).try_fold 2 3 =
      Valid.failure [{ message := (5 : Int), trace := [] }, { message := (600 : Int), trace := [] }] ∧
    (TryFold.from_iter [step_add, step_mul, step_mul100]).try_fold 2 3 ≠
      (TryFold.from_iter_left [step_add, step_mul, step_mul100]).try_fold 2 3 := by
  refine ⟨by decide, by decide, by decide⟩

/-- C2 (amended): `from_iter` is the right-associated fold of `and` —
`from_iter []` is the identity combinator (always succeeds with the state
unchanged) and `from_iter (head :: rest) = head.and (from_iter rest)`; over
[fail(a+b), succeed(a*b), fail(a*b*100)] with input 2 and state 3 it fails
with error list [5, 1200]. -/
theorem c2_from_iter_right_assoc_identity :
    (∀ (I O E : Type) (input : I) (state : O),
        (TryFold.from_iter ([] : List (TryFold I O E))).try_fold input state =
          Valid.succeed state) ∧
    (∀ (I O E : Type) (head : TryFold I O E) (rest : List (TryFold I O E)),
        TryFold.from_iter (head :: rest) = head.and (TryFold.from_iter rest)) ∧
    (TryFold.from_iter [step_add, step_mul, step_mul100]).try_fold 2 3 =
      Valid.failure [{ message := (5 : Int), trace := [] }, { message := (1200 : Int), trace := [] }] := by
  exact ⟨fun I O E input state => rfl, fun I O E head rest => rfl, by decide⟩

/-- Counterexample for C3: the object-schema members are not "exactly the
fields carrying no resolver directive" — field b of Foo carries a const
resolver yet appears as a member; also the built-in scalar name "JSON" maps
to an empty object schema, not to a string/number/boolean leaf. -/
theorem c3_const_field_included :
    to_json_schema 3 "Foo" true false c3_config =
      JsonSchema.Obj [("a", JsonSchema.Str), ("b", JsonSchema.Str)] ∧
    c3_const_field.const_field.isSome = true ∧
    to_json_schema 1 "JSON" true false empty_config = JsonSchema.Obj [] :=
  ⟨rfl, rfl, rfl⟩

/-- C3 (amended): when the name resolves to a configured type the result is
the wrapped object schema whose members are exactly the fields with neither
an unsafe-script nor an HTTP binding (const-resolved fields participate);
when it does not resolve, the wrapped primitive mapping (string, number,
boolean, empty object for "JSON", string for anything else); wrapping is
optional when not required, array when list, optional-array when both. -/
theorem c3_to_json_schema_shape :
    (∀ (fuel : Nat) (config : Config) (name : String) (required list : Bool)
        (type_ : ConfigType),
        config.find_type name = some type_ →
        to_json_schema (fuel + 1) name required list config =
          wrap_schema required list (JsonSchema.Obj
            ((type_.fields.filter fun p =>
                p.2.unsafe_operation.isNone && p.2.http.isNone).map
              fun p => (p.1, to_json_schema_for_field fuel p.2 config)))) ∧
    (∀ (fuel : Nat) (config : Config) (name : String) (required list : Bool),
        config.find_type name = none →
        to_json_schema (fuel + 1) name required list config =
          wrap_schema required list (primitive_schema name)) := by
  constructor
  · intro fuel config name required list type_ h
    simp only [to_json_schema, h, wrap_schema, to_json_schema_for_field]
  · intro fuel config name required list h
    simp only [to_json_schema, h, wrap_schema, primitive_schema.eq_def]

/-- Witness for C3: the amended characterization applied to the Foo
configuration (resolving case) and to the unknown scalar name Float
(non-resolving case, list and not required). -/
theorem c3_to_json_schema_shape_witness :
    to_json_schema 3 "Foo" true false c3_config =
      wrap_schema true false (JsonSchema.Obj
        ((c3_foo_type.fields.filter fun p =>
            p.2.unsafe_operation.isNone && p.2.http.isNone).map
          fun p => (p.1, to_json_schema_for_field 2 p.2 c3_config))) ∧
    to_json_schema 1 "Float" false true empty_config =
      wrap_schema false true (primitive_schema "Float") :=
  ⟨c3_to_json_schema_shape.1 2 c3_config "Foo" true false c3_foo_type rfl,
   c3_to_json_schema_shape.2 0 empty_config "Float" false true rfl⟩

/-- C9: after `apply_batching`, a blueprint with at least one object-type
field resolved by a group-by endpoint has upstream batch settings present
(the original settings, or the default when absent); a blueprint with no
such field is returned unchanged. -/
theorem c9_apply_batching :
    (∀ bp : Blueprint,
        (∃ d ∈ bp.definitions, ∃ o, d = Definition.ObjectTypeDefinition o ∧
          ∃ f ∈ o.fields, field_has_group_by_resolver f = true) →
        (apply_batching bp).upstream.batch = bp.upstream.batch.or (some Batch.default) ∧
        ((apply_batching bp).upstream.batch).isSome = true) ∧
    (∀ bp : Blueprint,
        (∀ d ∈ bp.definitions, ∀ o, d = Definition.ObjectTypeDefinition o →
          ∀ f ∈ o.fields, field_has_group_by_resolver f = false) →
        apply_batching bp = bp) := by
  constructor
  · intro bp h
    obtain ⟨d, hd, o, rfl, f, hf, hgb⟩ := h
    have hany : bp.definitions.any definition_has_group_by = true := by
      rw [List.any_eq_true]
      refine ⟨_, hd, ?_⟩
      simp only [definition_has_group_by, List.any_eq_true]
      exact ⟨f, hf, hgb⟩
    refine ⟨by simp [apply_batching, hany], ?_⟩
    simp only [apply_batching, hany, if_true]
    cases bp.upstream.batch <;> simp [Option.or]
  · intro bp h
    have hany : bp.definitions.any definition_has_group_by = false := by
      rw [List.any_eq_false]
      intro d hd
      cases d with
      | ObjectTypeDefinition o =>
        simp only [definition_has_group_by, Bool.not_eq_true, List.any_eq_false]
        intro f hf
        exact h _ hd o rfl f hf
      | InputObjectTypeDefinition o => simp [definition_has_group_by]
      | InterfaceTypeDefinition o => simp [definition_has_group_by]
      | ScalarTypeDefinition o => simp [definition_has_group_by]
      | EnumTypeDefinition o => simp [definition_has_group_by]
      | UnionTypeDefinition o => simp [definition_has_group_by]
    simp [apply_batching, hany]

/-- Witness for C9: the blueprint holding one group-by endpoint field gets
the default batch policy, and the blueprint without one is unchanged. -/
theorem c9_apply_batching_witness :
    ((apply_batching blueprint_with_group_by).upstream.batch =
        blueprint_with_group_by.upstream.batch.or (some Batch.default) ∧
      ((apply_batching blueprint_with_group_by).upstream.batch).isSome = true) ∧
    apply_batching blueprint_without_group_by = blueprint_without_group_by := by
  constructor
  · refine c9_apply_batching.1 blueprint_with_group_by ?_
    refine ⟨_, List.mem_singleton.mpr rfl, _, rfl, group_by_field_def, ?_, rfl⟩
    exact List.mem_singleton.mpr rfl
  · refine c9_apply_batching.2 blueprint_without_group_by ?_
    intro d hd o ho f hf
    simp only [blueprint_without_group_by, List.mem_singleton] at hd
    subst hd
    cases ho
    simp only [List.mem_singleton] at hf
    subst hf
    rfl

/-- C10: `apply_batching` changes at most the upstream batch field — the
schema, the definitions, the server settings and the upstream base URL of
the result equal those of the input blueprint. -/
theorem c10_apply_batching_frame :
    ∀ bp : Blueprint,
      (apply_batching bp).schema = bp.schema ∧
      (apply_batching bp).definitions = bp.definitions ∧
      (apply_batching bp).server = bp.server ∧
      (apply_batching bp).upstream.base_url = bp.upstream.base_url := by
  intro bp
  unfold apply_batching
  split <;> simp

/-- Helper: a failure `and`-composed with anything stays a failure headed by
the original cause, the other side's errors appended. -/
theorem fail_and_cons {A B : Type} (msg : String) (v : Valid B String) :
    ∃ rest, (Valid.fail msg : Valid A String).and v =
      Valid.failure ({ message := msg, trace := [] } :: rest) := by
  cases v with
  | succeed b => exact ⟨[], rfl⟩
  | failure e => exact ⟨e, rfl⟩

/-- Helper: a failure `and`-composed with anything never succeeds. -/
theorem fail_and_ne_succeed {A B E : Type} (msg : E) (v : Valid B E) (x : B) :
    (Valid.fail msg : Valid A E).and v ≠ Valid.succeed x := by
  cases v <;> simp [Valid.fail, Valid.and, Valid.zip, Valid.map]

/-- C5 (amended): a path segment that is resolved through the enclosing
type's field table and names a field carrying its own resolver directive
makes `process_field_within_type` fail, the error identifying the directive
kind and the field as [type.field]; conversely a successful resolution step
through that lookup implies the named field carries no resolver. This does
not cover segments consumed by the not-found fallback (when the current
segment names no field, the next segment is looked up and recursed into
without the resolver check), which is what the counterexample exercises. -/
theorem c5_path_crosses_resolver :
    (∀ (fuel : Nat) (field : Field) (field_name : String)
        (remaining_path : List String) (type_info : ConfigType) (is_required : Bool)
        (config : Config) (next_field : Field),
        type_info.fieldsGet field_name = some next_field →
        next_field.has_resolver = true →
        ∃ rest,
          process_field_within_type (fuel + 1) field field_name remaining_path type_info
              is_required config handle_invalid_path =
            Valid.failure ({ message := "Inline can't be done because of " ++
                next_resolver_directive next_field ++ " resolver at [" ++
                field.type_of ++ "." ++ field_name ++ "]", trace := [] } :: rest)) ∧
    (∀ (fuel : Nat) (field : Field) (field_name : String)
        (remaining_path : List String) (type_info : ConfigType) (is_required : Bool)
        (config : Config) (ty : GqlType) (next_field : Field),
        process_field_within_type fuel field field_name remaining_path type_info
            is_required config handle_invalid_path = Valid.succeed ty →
        type_info.fieldsGet field_name = some next_field →
        next_field.has_resolver = false) := by
  constructor
  · intro fuel field field_name remaining_path type_info is_required config next_field
      hget hres
    simp only [process_field_within_type, path_resolver, hget, hres, if_true]
    exact fail_and_cons _ _
  · intro fuel field field_name remaining_path type_info is_required config ty next_field
      h hget
    cases fuel with
    | zero =>
      simp [process_field_within_type, path_resolver, Valid.fail] at h
    | succ fuel =>
      simp only [process_field_within_type, path_resolver, hget] at h
      cases hres : next_field.has_resolver with
      | false => rfl
      | true =>
        rw [hres] at h
        simp only [if_true] at h
        exact absurd h (fail_and_ne_succeed _ _ _)

/-- Witness for C5: the inline step over the field `posts` of User, which
carries an HTTP resolver, fails naming the directive and [User.posts]. -/
theorem c5_path_crosses_resolver_witness :
    ∃ rest,
      process_field_within_type 3 c5_parent_field "posts" [] c5_user_type false
          empty_config handle_invalid_path =
        Valid.failure
          ({ message := "Inline can't be done because of http resolver at [User.posts]",
             trace := [] } :: rest) :=
  c5_path_crosses_resolver.1 2 c5_parent_field "posts" [] c5_user_type false
    empty_config c5_posts_field rfl rfl

/-- Counterexample for C5: the inline path ["x", "b", "c"] of T0.f has the
non-final segment "b" naming T1.b, which carries an HTTP resolver — yet
resolution succeeds with String. The segment "x" names no field of T0 or
T1, so the not-found fallback of `process_field_within_type` looks up the
following segment "b" directly and recurses into it without the resolver
check. -/
theorem c5_fallback_skips_resolver_check :
    (update_inline_field 9 c5_t0_type c5_f_field c5_base_field c5_cross_config).map
        (fun bf => bf.of_type) = Valid.succeed (GqlType.NamedType "String" false) ∧
    c5_t1_type.fieldsGet "b" = some c5_b_field ∧
    c5_b_field.has_resolver = true :=
  ⟨rfl, rfl, rfl⟩

/-- C6: a field declaring more than one resolution directive makes
`to_field` fail immediately with the "multiple resolvers" error naming the
declared directive identifiers, whatever the rest of the configuration. -/
theorem c6_multiple_resolvers :
    ∀ (fuel : Nat) (type_of : ConfigType) (config : Config) (name : String)
      (field : Field),
      field.resolvable_directives.length > 1 →
      to_field fuel type_of config name field =
        Valid.fail ("Multiple resolvers detected [" ++
          String.intercalate ", " field.resolvable_directives ++ "]") := by
  intro fuel type_of config name field h
  simp only [to_field]
  rw [if_pos h]

/-- Witness for C6: the field declaring both an HTTP and a const directive
fails with the error naming both identifiers. -/
theorem c6_multiple_resolvers_witness :
    to_field 3 ConfigType.default empty_config "x" c6_field =
      Valid.fail "Multiple resolvers detected [http, const]" :=
  c6_multiple_resolvers 3 ConfigType.default empty_config "x" c6_field (by decide)

/-- Helper: when the function fails on some list item, `Valid.from_iter`
fails and its error list contains every cause of that item's failure. -/
theorem from_iter_failure_mem {A B E : Type} (items : List A) (f : A → Valid B E)
    (x : A) (e : List (Cause E)) (hx : x ∈ items) (hf : f x = Valid.failure e) :
    ∃ es, Valid.from_iter items f = Valid.failure es ∧ ∀ c ∈ e, c ∈ es := by
  induction items with
  | nil => cases hx
  | cons y ys ih =>
    cases hx with
    | head =>
      cases hrest : Valid.from_iter ys f with
      | succeed bs =>
        exact ⟨e, by simp only [Valid.from_iter, hf, hrest]; rfl, fun c hc => hc⟩
      | failure e2 =>
        refine ⟨e ++ e2, by simp only [Valid.from_iter, hf, hrest]; rfl, ?_⟩
        intro c hc
        exact List.mem_append_left _ hc
    | tail _ hx =>
      obtain ⟨es, heq, hsub⟩ := ih hx
      cases hfy : f y with
      | succeed b =>
        exact ⟨es, by simp only [Valid.from_iter, hfy, heq]; rfl, hsub⟩
      | failure ey =>
        refine ⟨ey ++ es, by simp only [Valid.from_iter, hfy, heq]; rfl, ?_⟩
        intro c hc
        exact List.mem_append_right _ (hsub c hc)

/-- Counterexample for C7: the enum type E appears in both the output
closure and the input closure of the schema (it is the type of Query.q and
of its argument x), yet `to_definitions` succeeds — the enum branch is
chosen before the double-usage check, so no error names E. -/
theorem c7_enum_dbl_usage_accepted :
    (to_definitions 5 c7_config ["Query", "E"] ["E"]).is_succeed = true ∧
    c7_config.input_types = ["E"] ∧
    ("E" ∈ (["Query", "E"] : List String)) ∧ ("E" ∈ (["E"] : List String)) :=
  ⟨rfl, rfl, by decide, by decide⟩

/-- C7 (amended): a type name in both closures is rejected provided the type
is neither an enum (non-empty or empty variants) nor a scalar — for such a
type `to_definitions` fails and some error carries the message "type is used
in input and output" with the type's name as its trace. -/
theorem c7_dbl_usage_rejected :
    ∀ (fuel : Nat) (config : Config) (output_types input_types : List String)
      (name : String) (type_ : ConfigType),
      (name, type_) ∈ config.graphql.types →
      type_.variants = none →
      type_.scalar = false →
      name ∈ input_types →
      name ∈ output_types →
      ∃ es, to_definitions fuel config output_types input_types = Valid.failure es ∧
        ({ message := "type is used in input and output", trace := [name] } :
          Cause String) ∈ es := by
  intro fuel config outs ins name type_ hmem hvar hsc hin hout
  have hin' : ins.contains name = true := List.elem_eq_true_of_mem hin
  have hout' : outs.contains name = true := List.elem_eq_true_of_mem hout
  have hitem : to_definition_item fuel config outs ins (name, type_) =
      Valid.failure [{ message := "type is used in input and output", trace := [name] }] := by
    simp only [to_definition_item, hvar, hsc, hin', hout', Bool.and_true, Bool.and_self,
      if_true, if_false, Bool.false_eq_true]
    rfl
  obtain ⟨es, heq, hsub⟩ := from_iter_failure_mem config.graphql.types
    (to_definition_item fuel config outs ins) (name, type_)
    [{ message := "type is used in input and output", trace := [name] }] hmem hitem
  refine ⟨es, ?_, hsub _ (List.mem_singleton.mpr rfl)⟩
  unfold to_definitions
  rw [heq]
  rfl

/-- Witness for C7: the plain type B listed in both closures makes
`to_definitions` fail with the traced double-usage error. -/
theorem c7_dbl_usage_rejected_witness :
    ∃ es, to_definitions 4 c7_plain_config ["B"] ["B"] = Valid.failure es ∧
      ({ message := "type is used in input and output", trace := ["B"] } :
        Cause String) ∈ es :=
  c7_dbl_usage_rejected 4 c7_plain_config ["B"] ["B"] "B" ConfigType.default
    (by simp [c7_plain_config]) rfl rfl (by decide) (by decide)

/-- Helper: `to_type` with the required flag false yields a nullable type. -/
theorem to_type_false_nullable (name : String) (list ltr : Bool) :
    (to_type name list false ltr).is_nullable = true := by
  cases list <;> rfl

/-- Helper: inversion of a successful `and_then`. -/
theorem and_then_succeed {A B E : Type} {v : Valid A E} {f : A → Valid B E} {b : B}
    (h : v.and_then f = Valid.succeed b) :
    ∃ a, v = Valid.succeed a ∧ f a = Valid.succeed b := by
  cases v with
  | succeed a => exact ⟨a, rfl, h⟩
  | failure e => simp [Valid.and_then] at h

/-- Helper: the inline invalid-path handler never succeeds. -/
theorem handle_invalid_path_ne_succeed (n : String) (p : List String) (ty : GqlType) :
    handle_invalid_path n p ≠ Valid.succeed ty := by
  simp [handle_invalid_path, Valid.fail]

/-- Helper: `resolver_or_default` never changes the result type. -/
theorem resolver_or_default_of_type (b : FieldDefinition) (d : Expression)
    (f : Expression → Expression) :
    (b.resolver_or_default d f).of_type = b.of_type := by
  cases hb : b.resolver <;> simp [FieldDefinition.resolver_or_default, hb]

/-- Helper: starting with the accumulated required flag false (as the inline
step does), every successful path resolution yields a nullable top-level
type — the flag is and-combined with every traversed field's required flag,
so it stays false through both mutually recursive functions. -/
theorem path_resolver_false_nullable (fuel : Nat) :
    (∀ (path : List String) (field : Field) (type_info : ConfigType) (config : Config)
        (ty : GqlType),
        process_path fuel path field type_info false config handle_invalid_path =
          Valid.succeed ty → ty.is_nullable = true) ∧
    (∀ (field : Field) (field_name : String) (remaining_path : List String)
        (type_info : ConfigType) (config : Config) (ty : GqlType),
        process_field_within_type fuel field field_name remaining_path type_info false
          config handle_invalid_path = Valid.succeed ty → ty.is_nullable = true) := by
  induction fuel with
  | zero =>
    constructor
    · intro path field type_info config ty h
      simp [process_path, path_resolver, Valid.fail] at h
    · intro field field_name remaining_path type_info config ty h
      simp [process_field_within_type, path_resolver, Valid.fail] at h
  | succ fuel ih =>
    constructor
    · intro path field type_info config ty h
      simp only [process_path, path_resolver] at h
      cases path with
      | nil =>
        simp only [Valid.succeed.injEq] at h
        subst h
        exact to_type_false_nullable _ _ _
      | cons field_name remaining =>
        cases hdig : is_all_digits field_name with
        | true =>
          simp only [hdig, if_true] at h
          exact ih.1 remaining _ type_info config ty h
        | false =>
          simp only [hdig, Bool.false_eq_true, if_false] at h
          cases htgt : (if (type_info.fieldsGet field_name).isSome then some type_info
                        else config.find_type field.type_of) with
          | some target =>
            simp only [htgt] at h
            exact ih.2 field field_name remaining target config ty h
          | none =>
            simp only [htgt] at h
            exact absurd h (handle_invalid_path_ne_succeed _ _ _)
    · intro field field_name remaining_path type_info config ty h
      simp only [process_field_within_type, path_resolver] at h
      cases hget : type_info.fieldsGet field_name with
      | some next_field =>
        simp only [hget] at h
        cases hres : next_field.has_resolver with
        | true =>
          simp only [hres, if_true] at h
          exact absurd h (fail_and_ne_succeed _ _ _)
        | false =>
          simp only [hres, Bool.false_eq_true, if_false, Bool.false_and] at h
          cases hsc : is_scalar next_field.type_of with
          | true =>
            simp only [hsc, if_true] at h
            exact ih.1 remaining_path next_field type_info config ty h
          | false =>
            simp only [hsc, Bool.false_eq_true, if_false] at h
            cases hft : config.find_type next_field.type_of with
            | some next_type_info =>
              simp only [hft] at h
              obtain ⟨a, hpp, hf⟩ := and_then_succeed h
              cases hl : next_field.list with
              | true =>
                simp only [hl, if_true, Valid.succeed.injEq] at hf
                subst hf
                rfl
              | false =>
                simp only [hl, Bool.false_eq_true, if_false, Valid.succeed.injEq] at hf
                subst hf
                exact ih.1 remaining_path next_field next_type_info config a hpp
            | none =>
              simp only [hft] at h
              exact absurd h (handle_invalid_path_ne_succeed _ _ _)
      | none =>
        simp only [hget] at h
        cases remaining_path with
        | nil => exact absurd h (handle_invalid_path_ne_succeed _ _ _)
        | cons head tail =>
          cases hh : type_info.fieldsGet head with
          | some next =>
            simp only [hh] at h
            exact ih.1 tail next type_info config ty h
          | none =>
            simp only [hh] at h
            exact absurd h (handle_invalid_path_ne_succeed _ _ _)

/-- C4 (amended): the nullability of an inline-resolved type is the AND of
the initial accumulated flag with the traversed fields' required flags, and
`update_inline_field` starts that flag at false — so every successful inline
resolution yields a nullable top-level type, whatever the required flags
along the path; the result is still re-wrapped in a (nullable) list when the
referenced field was list-typed, as the concrete clause shows. -/
theorem c4_inline_nullability :
    (∀ (fuel : Nat) (type_info : ConfigType) (field : Field)
        (base_field : FieldDefinition) (config : Config) (bf : FieldDefinition),
        update_inline_field fuel type_info field base_field config = Valid.succeed bf →
        field.inline.isSome = true →
        bf.of_type.is_nullable = true) ∧
    (update_inline_field 9 c4_list_query_type c4_list_user_field c4_base_field
        c4_list_config).map (fun bf => bf.of_type) =
      Valid.succeed (GqlType.ListType (GqlType.NamedType "String" false) false) := by
  constructor
  · intro fuel type_info field base_field config bf h hsome
    cases hinl : field.inline with
    | none =>
      rw [hinl] at hsome
      simp at hsome
    | some inl =>
      simp only [update_inline_field, hinl] at h
      obtain ⟨a, hpp, hf⟩ := and_then_succeed h
      simp only [Valid.succeed.injEq] at hf
      subst hf
      rw [resolver_or_default_of_type]
      cases hidx : inl.path.any is_all_digits with
      | true =>
        simp only [hidx, if_true]
        rfl
      | false =>
        simp only [hidx, Bool.false_eq_true, if_false]
        exact (path_resolver_false_nullable fuel).1 inl.path field type_info config a hpp
  · rfl

/-- Witness for C4: the inline resolution of Query.user over c4_config
succeeds with the nullable field c4_result_field. -/
theorem c4_inline_nullability_witness :
    c4_result_field.of_type.is_nullable = true :=
  c4_inline_nullability.1 9 c4_query_type c4_user_field c4_base_field c4_config
    c4_result_field rfl rfl

/-- Counterexample for C4: along the inline path of Query.user every
traversed field (user itself and User.address) is required, so the claimed
AND of required flags is true — yet the resolved type is String with
non_null = false (nullable). -/
theorem c4_required_path_still_nullable :
    (update_inline_field 9 c4_query_type c4_user_field c4_base_field c4_config).map
        (fun bf => bf.of_type) = Valid.succeed (GqlType.NamedType "String" false) ∧
    c4_user_field.required = true ∧
    c4_address_field.required = true :=
  ⟨rfl, rfl, rfl⟩

/-- Helper: `map_to` keeps the error component. -/
theorem errors_map_to {A B E : Type} (v : Valid A E) (b : B) :
    (v.map_to b).errors = v.errors := by
  cases v <;> rfl

/-- C8: an HTTP binding with a non-empty group-by and a non-GET method makes
`update_http` fail; with an empty group-by the method is unconstrained by
this rule — the error component of the outcome is the same whatever the
method, and the concrete POST binding with empty group-by succeeds. -/
theorem c8_group_by_requires_get :
    (∀ (fuel : Nat) (field : Field) (b_field : FieldDefinition) (type_of : ConfigType)
        (config : Config) (http : Http),
        field.http = some http →
        http.group_by ≠ [] →
        http.method ≠ Method.GET →
        ∃ es, update_http fuel field b_field type_of config = Valid.failure es) ∧
    (∀ (fuel : Nat) (field : Field) (b_field : FieldDefinition) (type_of : ConfigType)
        (config : Config) (http : Http) (m1 m2 : Method),
        http.group_by = [] →
        (update_http fuel { field with http := some { http with method := m1 } } b_field
            type_of config).errors =
          (update_http fuel { field with http := some { http with method := m2 } } b_field
            type_of config).errors) ∧
    (update_http 3 c8_field_plain c8_base_field ConfigType.default
      empty_config).is_succeed = true := by
  refine ⟨?_, ?_, rfl⟩
  · intro fuel field b_field type_of config http hh hgb hm
    have hemp : http.group_by.isEmpty = false := by
      cases hgbl : http.group_by with
      | nil => exact absurd hgbl hgb
      | cons x xs => rfl
    have hne : (http.method != Method.GET) = true := bne_iff_ne.mpr hm
    simp only [update_http, hh]
    cases hbu : (match http.base_url with
                 | some b => some b
                 | none => config.upstream.base_url) with
    | none => exact ⟨_, rfl⟩
    | some base_url0 =>
      simp only [hemp, hne, Bool.not_false, Bool.and_self, Valid.when, if_true]
      obtain ⟨rest, hand⟩ := fail_and_cons (A := Unit)
        "GroupBy is only supported for GET requests"
        (Valid.from_iter http.headers fun kv =>
          ((Valid.from_result (header_name_from_bytes kv.1)).zip
            (Valid.from_result (header_value_from_str kv.2))).map fun nv => nv)
      rw [hand]
      exact ⟨_, rfl⟩
  · intro fuel field b_field type_of config http m1 m2 hgb
    simp only [update_http, hgb]
    cases hbu : (match http.base_url with
                 | some b => some b
                 | none => config.upstream.base_url) with
    | none => rfl
    | some base_url0 =>
      simp only [List.isEmpty_nil, Bool.not_true, Bool.false_and, Valid.when,
        Bool.false_eq_true, if_false, to_json_schema_for_field]
      cases hH : Valid.from_iter http.headers (fun kv =>
          ((Valid.from_result (header_name_from_bytes kv.1)).zip
            (Valid.from_result (header_value_from_str kv.2))).map fun nv => nv) with
      | failure e => rfl
      | succeed l =>
        simp only [Valid.and, Valid.zip, Valid.map, Valid.and_then,
          RequestTemplate.try_from, Valid.from_result, validate_field,
          FieldDefinition.set_resolver, Lambda.from_request_template,
          Mustache.expression_segments, errors_map_to]

/-- Witness for C8: the POST binding with group-by ["id"] fails, and with an
empty group-by the error component is the same for PUT and GET. -/
theorem c8_group_by_requires_get_witness :
    (∃ es, update_http 3 c8_field_group_by c8_base_field ConfigType.default empty_config =
      Valid.failure es) ∧
    (update_http 3 { c8_field_plain with
        http := some { c8_http_plain with method := Method.PUT } } c8_base_field
        ConfigType.default empty_config).errors =
      (update_http 3 { c8_field_plain with
        http := some { c8_http_plain with method := Method.GET } } c8_base_field
        ConfigType.default empty_config).errors := by
  constructor
  · exact c8_group_by_requires_get.1 3 c8_field_group_by c8_base_field ConfigType.default
      empty_config c8_http_group_by rfl (by decide) (by decide)
  · exact c8_group_by_requires_get.2.1 3 c8_field_plain c8_base_field ConfigType.default
      empty_config c8_http_plain Method.PUT Method.GET rfl

end TC
